import Mathlib

set_option maxHeartbeats 1000000
set_option maxRecDepth 100000

/-!
Shallow embedding of `src/iana/rcode.rs` (DNS response codes) and proofs
about it.

The file embeds the three response-code types of the source: `Rcode`
(the 4-bit header code), `OptRcode` (the 12-bit extended EDNS code) and
`TsigRcode` (the 16-bit TSIG/TKEY code), together with their integer
conversions, the part composition and decomposition of `OptRcode`, the
comparison and hashing delegations, and the `Display` renderings.

Machine integers (`u8`, `u16`) are embedded as `Nat`.  The source masks
`& 0x0F` and `& 0x0FFF` are written `% 16` and `% 4096`, the cast
`as u8` is written `% 256`; shifts and bitwise or are kept as `<<<`,
`>>>` and `|||` where the source uses `<<`, `>>` and `|`.
-/

/-- DNS response codes (`Rcode` in the source).  The `Int` constructor is
the catch-all arm holding a raw `u8` value. -/
inductive Rcode where
  | NoError
  | FormErr
  | ServFail
  | NXDomain
  | NotImp
  | Refused
  | YXDomain
  | YXRRSet
  | NXRRSet
  | NotAuth
  | NotZone
  | Int (value : Nat)
deriving DecidableEq

/-- `Rcode::from_int`: only the lower four bits of `value` are considered
(the source matches on `value & 0x0F`). -/
def Rcode.from_int (value : Nat) : Rcode :=
  let v := value % 16
  if v = 0 then .NoError
  else if v = 1 then .FormErr
  else if v = 2 then .ServFail
  else if v = 3 then .NXDomain
  else if v = 4 then .NotImp
  else if v = 5 then .Refused
  else if v = 6 then .YXDomain
  else if v = 7 then .YXRRSet
  else if v = 8 then .NXRRSet
  else if v = 9 then .NotAuth
  else if v = 10 then .NotZone
  else .Int v

/-- `Rcode::to_int`: the registry constant per variant; the catch-all arm
re-masks with `0x0F`. -/
def Rcode.to_int : Rcode → Nat
  | .NoError => 0
  | .FormErr => 1
  | .ServFail => 2
  | .NXDomain => 3
  | .NotImp => 4
  | .Refused => 5
  | .YXDomain => 6
  | .YXRRSet => 7
  | .NXRRSet => 8
  | .NotAuth => 9
  | .NotZone => 10
  | .Int value => value % 16

/-- `impl Display for Rcode`.  The source's catch-all arm re-classifies the
stored integer with `from_int` and recurses into the resulting named
variant's own arm (or renders the re-masked integer in decimal); since that
recursion is at most one step deep, it is unfolded here. -/
def Rcode.display : Rcode → String
  | .NoError => "NOERROR"
  | .FormErr => "FORMERR"
  | .ServFail => "SERVFAIL"
  | .NXDomain => "NXDOMAIN"
  | .NotImp => "NOTIMP"
  | .Refused => "REFUSED"
  | .YXDomain => "YXDOMAIN"
  | .YXRRSet => "YXRRSET"
  | .NXRRSet => "NXRRSET"
  | .NotAuth => "NOAUTH"
  | .NotZone => "NOTZONE"
  | .Int i =>
    match Rcode.from_int i with
    | .Int j => Nat.repr j
    | .NoError => "NOERROR"
    | .FormErr => "FORMERR"
    | .ServFail => "SERVFAIL"
    | .NXDomain => "NXDOMAIN"
    | .NotImp => "NOTIMP"
    | .Refused => "REFUSED"
    | .YXDomain => "YXDOMAIN"
    | .YXRRSet => "YXRRSET"
    | .NXRRSet => "NXRRSET"
    | .NotAuth => "NOAUTH"
    | .NotZone => "NOTZONE"

/-- `impl PartialEq for Rcode`: delegates to `to_int`. -/
def Rcode.beq (self other : Rcode) : Bool :=
  self.to_int == other.to_int

/-- `impl PartialEq<u8> for Rcode`: delegates to `to_int`. -/
def Rcode.beqNat (self : Rcode) (other : Nat) : Bool :=
  self.to_int == other

/-- `impl Ord for Rcode`: delegates to `to_int`. -/
def Rcode.cmp (self other : Rcode) : Ordering :=
  compare self.to_int other.to_int

/-- `impl Hash for Rcode`: feeds `to_int` to the hasher state. -/
def Rcode.hashWith (state : Nat → Nat) (self : Rcode) : Nat :=
  state self.to_int

/-- Extended DNS response codes for OPT records (`OptRcode` in the
source).  The `Int` constructor is the catch-all arm holding a raw `u16`
value. -/
inductive OptRcode where
  | NoError
  | FormErr
  | ServFail
  | NXDomain
  | NotImp
  | Refused
  | YXDomain
  | YXRRSet
  | NXRRSet
  | NotAuth
  | NotZone
  | BadVers
  | BadCookie
  | Int (value : Nat)
deriving DecidableEq

/-- `OptRcode::from_int`: only the lower twelve bits of `value` are
considered (the source matches on `value & 0x0FFF`). -/
def OptRcode.from_int (value : Nat) : OptRcode :=
  let v := value % 4096
  if v = 0 then .NoError
  else if v = 1 then .FormErr
  else if v = 2 then .ServFail
  else if v = 3 then .NXDomain
  else if v = 4 then .NotImp
  else if v = 5 then .Refused
  else if v = 6 then .YXDomain
  else if v = 7 then .YXRRSet
  else if v = 8 then .NXRRSet
  else if v = 9 then .NotAuth
  else if v = 10 then .NotZone
  else if v = 16 then .BadVers
  else if v = 23 then .BadCookie
  else .Int v

/-- `OptRcode::to_int`: the registry constant per variant; the catch-all
arm re-masks with `0x0F` (four bits, not twelve). -/
def OptRcode.to_int : OptRcode → Nat
  | .NoError => 0
  | .FormErr => 1
  | .ServFail => 2
  | .NXDomain => 3
  | .NotImp => 4
  | .Refused => 5
  | .YXDomain => 6
  | .YXRRSet => 7
  | .NXRRSet => 8
  | .NotAuth => 9
  | .NotZone => 10
  | .BadVers => 16
  | .BadCookie => 23
  | .Int value => value % 16

mutual

/-- `OptRcode::from_parts`.  The source's `ext == 0` branch calls
`rcode.into()`, that is `<OptRcode as From<Rcode>>::from`, which itself
calls `OptRcode::from_parts(rcode, 0)` again; this mutual recursion never
makes progress, so it is embedded with an explicit call-depth budget
`fuel`, where `none` means the budget was exhausted before a result was
produced. -/
def OptRcode.from_parts : Nat → Rcode → Nat → Option OptRcode
  | 0, _, _ => none
  | fuel + 1, rcode, ext =>
    if ext = 0 then Rcode.intoOptRcode fuel rcode
    else some (OptRcode.from_int ((ext <<< 4) ||| rcode.to_int))

/-- `impl From<Rcode> for OptRcode`: calls `OptRcode::from_parts(value, 0)`;
embedded with the same call-depth budget as `from_parts`. -/
def Rcode.intoOptRcode : Nat → Rcode → Option OptRcode
  | 0, _ => none
  | fuel + 1, rcode => OptRcode.from_parts fuel rcode 0

end

/-- `OptRcode::to_parts`: `(Rcode::from_int(res as u8), (res >> 8) as u8)`
where `res = self.to_int()`. -/
def OptRcode.to_parts (self : OptRcode) : Rcode × Nat :=
  let res := self.to_int
  (Rcode.from_int (res % 256), (res >>> 8) % 256)

/-- `OptRcode::rcode`: the rcode part of the extended rcode. -/
def OptRcode.rcode (self : OptRcode) : Rcode :=
  self.to_parts.1

/-- `OptRcode::ext`: the extended octet of the extended rcode. -/
def OptRcode.ext (self : OptRcode) : Nat :=
  self.to_parts.2

/-- `impl Display for OptRcode`, with the source's one-step catch-all
recursion unfolded as for `Rcode`. -/
def OptRcode.display : OptRcode → String
  | .NoError => "NOERROR"
  | .FormErr => "FORMERR"
  | .ServFail => "SERVFAIL"
  | .NXDomain => "NXDOMAIN"
  | .NotImp => "NOTIMP"
  | .Refused => "REFUSED"
  | .YXDomain => "YXDOMAIN"
  | .YXRRSet => "YXRRSET"
  | .NXRRSet => "NXRRSET"
  | .NotAuth => "NOAUTH"
  | .NotZone => "NOTZONE"
  | .BadVers => "BADVER"
  | .BadCookie => "BADCOOKIE"
  | .Int i =>
    match OptRcode.from_int i with
    | .Int j => Nat.repr j
    | .NoError => "NOERROR"
    | .FormErr => "FORMERR"
    | .ServFail => "SERVFAIL"
    | .NXDomain => "NXDOMAIN"
    | .NotImp => "NOTIMP"
    | .Refused => "REFUSED"
    | .YXDomain => "YXDOMAIN"
    | .YXRRSet => "YXRRSET"
    | .NXRRSet => "NXRRSET"
    | .NotAuth => "NOAUTH"
    | .NotZone => "NOTZONE"
    | .BadVers => "BADVER"
    | .BadCookie => "BADCOOKIE"

/-- Response codes for transaction authentication (`TsigRcode` in the
source).  The `Int` constructor is the catch-all arm holding a raw `u16`
value. -/
inductive TsigRcode where
  | NoError
  | FormErr
  | ServFail
  | NXDomain
  | NotImp
  | Refused
  | YXDomain
  | YXRRSet
  | NXRRSet
  | NotAuth
  | NotZone
  | BadSig
  | BadKey
  | BadTime
  | BadMode
  | BadName
  | BadAlg
  | BadTrunc
  | BadCookie
  | Int (value : Nat)
deriving DecidableEq

/-- `TsigRcode::from_int`: matches the full 16-bit value, no masking. -/
def TsigRcode.from_int (value : Nat) : TsigRcode :=
  if value = 0 then .NoError
  else if value = 1 then .FormErr
  else if value = 2 then .ServFail
  else if value = 3 then .NXDomain
  else if value = 4 then .NotImp
  else if value = 5 then .Refused
  else if value = 6 then .YXDomain
  else if value = 7 then .YXRRSet
  else if value = 8 then .NXRRSet
  else if value = 9 then .NotAuth
  else if value = 10 then .NotZone
  else if value = 16 then .BadSig
  else if value = 17 then .BadKey
  else if value = 18 then .BadTime
  else if value = 19 then .BadMode
  else if value = 20 then .BadName
  else if value = 21 then .BadAlg
  else if value = 22 then .BadTrunc
  else if value = 23 then .BadCookie
  else .Int value

/-- `TsigRcode::to_int`: the registry constant per variant; the catch-all
arm re-masks with `0x0F` (four bits, not sixteen). -/
def TsigRcode.to_int : TsigRcode → Nat
  | .NoError => 0
  | .FormErr => 1
  | .ServFail => 2
  | .NXDomain => 3
  | .NotImp => 4
  | .Refused => 5
  | .YXDomain => 6
  | .YXRRSet => 7
  | .NXRRSet => 8
  | .NotAuth => 9
  | .NotZone => 10
  | .BadSig => 16
  | .BadKey => 17
  | .BadTime => 18
  | .BadMode => 19
  | .BadName => 20
  | .BadAlg => 21
  | .BadTrunc => 22
  | .BadCookie => 23
  | .Int value => value % 16

/-- `impl From<Rcode> for TsigRcode`: `TsigRcode::from_int(value.to_int() as u16)`. -/
def Rcode.intoTsigRcode (value : Rcode) : TsigRcode :=
  TsigRcode.from_int value.to_int

/-- `impl From<OptRcode> for TsigRcode`: `TsigRcode::from_int(value.to_int())`. -/
def OptRcode.intoTsigRcode (value : OptRcode) : TsigRcode :=
  TsigRcode.from_int value.to_int

/-- `impl Display for TsigRcode`, with the source's one-step catch-all
recursion unfolded as for `Rcode`. -/
def TsigRcode.display : TsigRcode → String
  | .NoError => "NOERROR"
  | .FormErr => "FORMERR"
  | .ServFail => "SERVFAIL"
  | .NXDomain => "NXDOMAIN"
  | .NotImp => "NOTIMP"
  | .Refused => "REFUSED"
  | .YXDomain => "YXDOMAIN"
  | .YXRRSet => "YXRRSET"
  | .NXRRSet => "NXRRSET"
  | .NotAuth => "NOAUTH"
  | .NotZone => "NOTZONE"
  | .BadSig => "BADSIG"
  | .BadKey => "BADKEY"
  | .BadTime => "BADTIME"
  | .BadMode => "BADMODE"
  | .BadName => "BADNAME"
  | .BadAlg => "BADALG"
  | .BadTrunc => "BADTRUNC"
  | .BadCookie => "BADCOOKIE"
  | .Int i =>
    match TsigRcode.from_int i with
    | .Int j => Nat.repr j
    | .NoError => "NOERROR"
    | .FormErr => "FORMERR"
    | .ServFail => "SERVFAIL"
    | .NXDomain => "NXDOMAIN"
    | .NotImp => "NOTIMP"
    | .Refused => "REFUSED"
    | .YXDomain => "YXDOMAIN"
    | .YXRRSet => "YXRRSET"
    | .NXRRSet => "NXRRSET"
    | .NotAuth => "NOAUTH"
    | .NotZone => "NOTZONE"
    | .BadSig => "BADSIG"
    | .BadKey => "BADKEY"
    | .BadTime => "BADTIME"
    | .BadMode => "BADMODE"
    | .BadName => "BADNAME"
    | .BadAlg => "BADALG"
    | .BadTrunc => "BADTRUNC"
    | .BadCookie => "BADCOOKIE"

/-- Modelled from the spec: "Equality, ordering, and hashing for a value
are defined solely by its resolved integer value (`to_int()`)".  The
source file derives no equality for `OptRcode` (only `Rcode` has the
comparison impls); this definition follows the spec's contract. -/
def OptRcode.beq (self other : OptRcode) : Bool :=
  self.to_int == other.to_int

/-- Modelled from the spec: "Equality, ordering, and hashing for a value
are defined solely by its resolved integer value (`to_int()`)".  The
source file has no ordering for `OptRcode`; this definition follows the
spec's contract. -/
def OptRcode.cmp (self other : OptRcode) : Ordering :=
  compare self.to_int other.to_int

/-- Modelled from the spec: "Equality, ordering, and hashing for a value
are defined solely by its resolved integer value (`to_int()`)".  The
source file has no hashing for `OptRcode`; this definition follows the
spec's contract. -/
def OptRcode.hashWith (state : Nat → Nat) (self : OptRcode) : Nat :=
  state self.to_int

/-- Modelled from the spec: "Equality, ordering, and hashing for a value
are defined solely by its resolved integer value (`to_int()`)".  The
source file derives no equality for `TsigRcode`; this definition follows
the spec's contract. -/
def TsigRcode.beq (self other : TsigRcode) : Bool :=
  self.to_int == other.to_int

/-- Modelled from the spec: "Equality, ordering, and hashing for a value
are defined solely by its resolved integer value (`to_int()`)".  The
source file has no ordering for `TsigRcode`; this definition follows the
spec's contract. -/
def TsigRcode.cmp (self other : TsigRcode) : Ordering :=
  compare self.to_int other.to_int

/-- Modelled from the spec: "Equality, ordering, and hashing for a value
are defined solely by its resolved integer value (`to_int()`)".  The
source file has no hashing for `TsigRcode`; this definition follows the
spec's contract. -/
def TsigRcode.hashWith (state : Nat → Nat) (self : TsigRcode) : Nat :=
  state self.to_int

/-- The registry values the source maps to named `OptRcode` variants. -/
def optNamedValues : List Nat :=
  [0, 1, 2, 3, 4, 5, 6, 7, 8, 9, 10, 16, 23]

/-- The registry values the source maps to named `TsigRcode` variants. -/
def tsigNamedValues : List Nat :=
  [0, 1, 2, 3, 4, 5, 6, 7, 8, 9, 10, 16, 17, 18, 19, 20, 21, 22, 23]

/-- `OptRcode` discriminator for the catch-all constructor. -/
def OptRcode.isRaw : OptRcode → Bool
  | .Int _ => true
  | _ => false

/-- Modelled from the spec: the canonical uppercase mnemonics the IANA DNS
RCODE registry (referenced throughout the spec) assigns to the values this
module names in the 4-bit header-code space; `none` for values without a
named variant in this module. -/
def ianaRcodeMnemonic (v : Nat) : Option String :=
  if v = 0 then some "NOERROR"
  else if v = 1 then some "FORMERR"
  else if v = 2 then some "SERVFAIL"
  else if v = 3 then some "NXDOMAIN"
  else if v = 4 then some "NOTIMP"
  else if v = 5 then some "REFUSED"
  else if v = 6 then some "YXDOMAIN"
  else if v = 7 then some "YXRRSET"
  else if v = 8 then some "NXRRSET"
  else if v = 9 then some "NOTAUTH"
  else if v = 10 then some "NOTZONE"
  else none

/-- Modelled from the spec: the canonical uppercase mnemonics the IANA DNS
RCODE registry assigns to the values this module names in the 12-bit
extended (EDNS) code space; at value 16 the registry mnemonic in the EDNS
context is `BADVERS`. -/
def ianaOptMnemonic (v : Nat) : Option String :=
  if v = 16 then some "BADVERS"
  else if v = 23 then some "BADCOOKIE"
  else ianaRcodeMnemonic v

/-- Modelled from the spec: the canonical uppercase mnemonics the IANA DNS
RCODE registry assigns to the values this module names in the 16-bit
TSIG/TKEY code space; at value 16 the registry mnemonic in the TSIG
context is `BADSIG`. -/
def ianaTsigMnemonic (v : Nat) : Option String :=
  if v = 16 then some "BADSIG"
  else if v = 17 then some "BADKEY"
  else if v = 18 then some "BADTIME"
  else if v = 19 then some "BADMODE"
  else if v = 20 then some "BADNAME"
  else if v = 21 then some "BADALG"
  else if v = 22 then some "BADTRUNC"
  else if v = 23 then some "BADCOOKIE"
  else ianaRcodeMnemonic v

/-- The rendering the source actually produces for a masked 4-bit header
code value: the IANA mnemonic, except that value 9 renders as `NOAUTH`
(the registry says `NOTAUTH`), and values without a mnemonic render in
decimal. -/
def rcodeDisplaySpec (m : Nat) : String :=
  if m = 9 then "NOAUTH" else (ianaRcodeMnemonic m).getD (Nat.repr m)

/-- The rendering the source actually produces for a masked 12-bit
extended code value: the IANA mnemonic, except that value 9 renders as
`NOAUTH` and value 16 renders as `BADVER` (the registry says `NOTAUTH`
and `BADVERS`), and values without a mnemonic render in decimal. -/
def optDisplaySpec (m : Nat) : String :=
  if m = 9 then "NOAUTH"
  else if m = 16 then "BADVER"
  else (ianaOptMnemonic m).getD (Nat.repr m)

/-- The rendering the source actually produces for a 16-bit TSIG code
value: the IANA mnemonic, except that value 9 renders as `NOAUTH` (the
registry says `NOTAUTH`), and values without a mnemonic render in
decimal. -/
def tsigDisplaySpec (v : Nat) : String :=
  if v = 9 then "NOAUTH" else (ianaTsigMnemonic v).getD (Nat.repr v)

/-! Helper lemmas. -/

/-- The mask `& 0x0F` is reduction mod 16. -/
theorem and_fifteen_eq_mod (v : Nat) : v &&& 15 = v % 16 := by
  have h := Nat.and_pow_two_sub_one_eq_mod v 4
  norm_num at h
  exact h

/-- The mask `& 0x0FFF` is reduction mod 4096. -/
theorem and_4095_eq_mod (v : Nat) : v &&& 4095 = v % 4096 := by
  have h := Nat.and_pow_two_sub_one_eq_mod v 12
  norm_num at h
  exact h

/-- `(ext << 4) | b` composes arithmetically when `b` fits in four bits. -/
theorem shiftLeft_four_or (ext b : Nat) (hb : b < 16) :
    (ext <<< 4) ||| b = 16 * ext + b := by
  have hb4 : b < 2 ^ 4 := by norm_num [hb]
  have h : (2 : Nat) ^ 4 * ext + b = 2 ^ 4 * ext ||| b :=
    Nat.mul_add_lt_is_or hb4 ext
  rw [Nat.shiftLeft_eq, Nat.mul_comm ext (2 ^ 4), ← h]
  norm_num

/-- Every `Rcode` resolves below 16. -/
theorem rcode_to_int_lt (r : Rcode) : r.to_int < 16 := by
  cases r <;> simp only [Rcode.to_int] <;> omega

/-- `Rcode::from_int` only depends on its argument mod 16. -/
theorem rcode_from_int_mod (v : Nat) :
    Rcode.from_int v = Rcode.from_int (v % 16) := by
  have h : v % 16 % 16 = v % 16 := Nat.mod_mod_of_dvd v dvd_rfl
  simp only [Rcode.from_int, h]

/-- `Rcode::from_int` then `to_int` is reduction mod 16. -/
theorem rcode_from_int_to_int (v : Nat) :
    (Rcode.from_int v).to_int = v % 16 := by
  have hb : ∀ m, m < 16 → (Rcode.from_int m).to_int = m := by decide
  rw [rcode_from_int_mod]
  exact hb (v % 16) (Nat.mod_lt v (by norm_num))

/-- `OptRcode::from_int` only depends on its argument mod 4096. -/
theorem opt_from_int_mod (v : Nat) :
    OptRcode.from_int v = OptRcode.from_int (v % 4096) := by
  have h : v % 4096 % 4096 = v % 4096 := Nat.mod_mod_of_dvd v dvd_rfl
  simp only [OptRcode.from_int, h]

/-- A masked value the source does not name classifies to the catch-all
variant holding the masked value. -/
theorem opt_from_int_not_named (v : Nat)
    (h : (v % 4096) ∉ optNamedValues) :
    OptRcode.from_int v = .Int (v % 4096) := by
  simp only [optNamedValues, List.mem_cons, List.not_mem_nil, or_false] at h
  push_neg at h
  obtain ⟨h0, h1, h2, h3, h4, h5, h6, h7, h8, h9, h10, h16, h23⟩ := h
  simp only [OptRcode.from_int, if_neg h0, if_neg h1, if_neg h2, if_neg h3,
    if_neg h4, if_neg h5, if_neg h6, if_neg h7, if_neg h8, if_neg h9,
    if_neg h10, if_neg h16, if_neg h23]

/-- A masked value the source names classifies to a named variant whose
resolved integer is the masked value. -/
theorem opt_from_int_named (v : Nat)
    (h : (v % 4096) ∈ optNamedValues) :
    (OptRcode.from_int v).isRaw = false ∧
      (OptRcode.from_int v).to_int = v % 4096 := by
  simp only [optNamedValues, List.mem_cons, List.not_mem_nil, or_false] at h
  rcases h with h | h | h | h | h | h | h | h | h | h | h | h | h <;>
    (rw [opt_from_int_mod, h]; exact ⟨rfl, rfl⟩)

/-- `OptRcode::from_int` then `to_int` agrees with the input mod 16. -/
theorem opt_from_int_to_int_mod (v : Nat) :
    (OptRcode.from_int v).to_int % 16 = v % 16 := by
  by_cases h : (v % 4096) ∈ optNamedValues
  · have h2 := (opt_from_int_named v h).2
    omega
  · rw [opt_from_int_not_named v h]
    simp only [OptRcode.to_int]
    omega


/-! Claim theorems. -/

/-- C1: the claim says `OptRcode::from_parts(base, 0)` (equivalently the
`From<Rcode>` conversion) terminates and produces the `Rcode` to
`OptRcode` conversion of `base`.  In the source the `ext == 0` branch of
`from_parts` and `From<Rcode>::from` call each other forever: at every
call-depth budget, both calls run out of fuel without producing a result,
for every base code. -/
theorem from_parts_ext_zero_diverges (fuel : Nat) (base : Rcode) :
    OptRcode.from_parts fuel base 0 = none ∧
      Rcode.intoOptRcode fuel base = none := by
  induction fuel generalizing base with
  | zero => exact ⟨rfl, rfl⟩
  | succ n ih =>
    constructor
    · rw [show OptRcode.from_parts (n + 1) base 0 =
        Rcode.intoOptRcode n base from rfl]
      exact (ih base).2
    · rw [show Rcode.intoOptRcode (n + 1) base =
        OptRcode.from_parts n base 0 from rfl]
      exact (ih base).1

/-- C2: for every 16-bit integer `v`, the catch-all arm of `to_int` masks
the stored value with `0x0F` in both wide types. -/
theorem wide_to_int_masks_low_nibble (v : Nat) (_h : v < 65536) :
    (OptRcode.Int v).to_int = v &&& 0x0F ∧
      (TsigRcode.Int v).to_int = v &&& 0x0F := by
  rw [and_fifteen_eq_mod]
  exact ⟨rfl, rfl⟩

/-- Witness for C2 at the concrete 16-bit value `0x1234`. -/
theorem wide_to_int_masks_low_nibble_witness :
    (OptRcode.Int 4660).to_int = 4660 &&& 0x0F ∧
      (TsigRcode.Int 4660).to_int = 4660 &&& 0x0F :=
  wide_to_int_masks_low_nibble 4660 (by norm_num)

/-- C3: for every base code and non-zero extension octet, the first
component of `to_parts (from_parts base ext)` equals `base` by resolved
integer value (at any sufficient call-depth budget; the `ext != 0` path
returns without recursing). -/
theorem from_parts_to_parts_base_roundtrip (base : Rcode) (ext fuel : Nat)
    (_hext : ext < 256) (hne : ext ≠ 0) :
    (OptRcode.from_parts (fuel + 1) base ext).map
      (fun r => r.to_parts.1.to_int) = some base.to_int := by
  have hb : base.to_int < 16 := rcode_to_int_lt base
  have key : ((OptRcode.from_int (16 * ext + base.to_int)).to_parts).1.to_int
      = base.to_int := by
    show (Rcode.from_int
      ((OptRcode.from_int (16 * ext + base.to_int)).to_int % 256)).to_int
      = base.to_int
    rw [rcode_from_int_to_int]
    have h1 := opt_from_int_to_int_mod (16 * ext + base.to_int)
    omega
  rw [show OptRcode.from_parts (fuel + 1) base ext = if ext = 0
    then Rcode.intoOptRcode fuel base
    else some (OptRcode.from_int ((ext <<< 4) ||| base.to_int)) from rfl]
  rw [if_neg hne, shiftLeft_four_or ext base.to_int hb]
  simpa using key

/-- Witness for C3 at `base = NXDomain`, `ext = 1`, budget 1. -/
theorem from_parts_to_parts_base_roundtrip_witness :
    (OptRcode.from_parts 1 Rcode.NXDomain 1).map
      (fun r => r.to_parts.1.to_int) = some Rcode.NXDomain.to_int :=
  from_parts_to_parts_base_roundtrip Rcode.NXDomain 1 0 (by norm_num)
    (by norm_num)

/-- C5: the 4-bit construction and extraction round-trip is the identity
on the full in-range domain `0..=15`. -/
theorem rcode_from_to_int_roundtrip :
    ∀ v < 16, (Rcode.from_int v).to_int = v := by
  decide

/-- Witness for C5 at `v = 5`. -/
theorem rcode_from_to_int_roundtrip_witness :
    (Rcode.from_int 5).to_int = 5 :=
  rcode_from_to_int_roundtrip 5 (by norm_num)

/-- C6: converting `OptRcode::BadVers` (resolved value 16) to `TsigRcode`
yields `BadSig`, which renders as `BADSIG`; converting
`OptRcode::BadCookie` (resolved value 23) yields `BadCookie`. -/
theorem opt_to_tsig_collision :
    OptRcode.BadVers.intoTsigRcode = TsigRcode.BadSig ∧
      (OptRcode.BadVers.intoTsigRcode).display = "BADSIG" ∧
      OptRcode.BadCookie.intoTsigRcode = TsigRcode.BadCookie :=
  ⟨rfl, rfl, rfl⟩

/-- C8: the `Display` rendering of a catch-all `Rcode` re-classifies its
stored integer first: `Int(3)` renders as `NXDOMAIN` and `Int(200)` as
`NXRRSET` (`200 & 0x0F == 8`, the value of `NXRRSet`). -/
theorem display_reclassifies_catch_all :
    Rcode.display (Rcode.Int 3) = "NXDOMAIN" ∧
      Rcode.display (Rcode.Int 200) = "NXRRSET" :=
  ⟨rfl, rfl⟩

/-- C10: every `OptRcode` resolves to at most 23, so the extension octet
recovered by `to_parts` (and by `ext`) is always zero. -/
theorem opt_to_int_le_23_ext_zero (x : OptRcode) :
    x.to_int ≤ 23 ∧ x.to_parts.2 = 0 ∧ x.ext = 0 := by
  have h : x.to_int ≤ 23 := by
    cases x <;> simp only [OptRcode.to_int] <;> omega
  have h2 : x.to_parts.2 = 0 := by
    show (x.to_int >>> 8) % 256 = 0
    have h256 : (2 : Nat) ^ 8 = 256 := by norm_num
    rw [Nat.shiftRight_eq_div_pow, h256]
    omega
  exact ⟨h, h2, h2⟩

/-- C4: `OptRcode::from_int` is total and masks first: classification only
sees `v & 0x0FFF`; the result is a named variant exactly when the masked
value is one of the thirteen registry values, resolving to the masked
value, and otherwise it is the catch-all holding the masked value. -/
theorem opt_from_int_total_classification (v : Nat) (_h : v < 65536) :
    OptRcode.from_int v = OptRcode.from_int (v &&& 0x0FFF) ∧
      ((OptRcode.from_int v).isRaw = false ↔
        (v &&& 0x0FFF) ∈ optNamedValues) ∧
      ((v &&& 0x0FFF) ∉ optNamedValues →
        OptRcode.from_int v = OptRcode.Int (v &&& 0x0FFF)) ∧
      ((v &&& 0x0FFF) ∈ optNamedValues →
        (OptRcode.from_int v).to_int = v &&& 0x0FFF) := by
  rw [and_4095_eq_mod]
  refine ⟨opt_from_int_mod v, ⟨?_, fun hmem => (opt_from_int_named v hmem).1⟩,
    fun hmem => opt_from_int_not_named v hmem,
    fun hmem => (opt_from_int_named v hmem).2⟩
  intro hf
  by_contra hmem
  have he := opt_from_int_not_named v hmem
  rw [he] at hf
  simp [OptRcode.isRaw] at hf

/-- Witness for C4 at the concrete value 100 (unnamed after masking). -/
theorem opt_from_int_total_classification_witness :
    OptRcode.from_int 100 = OptRcode.from_int (100 &&& 0x0FFF) ∧
      ((OptRcode.from_int 100).isRaw = false ↔
        (100 &&& 0x0FFF) ∈ optNamedValues) ∧
      ((100 &&& 0x0FFF) ∉ optNamedValues →
        OptRcode.from_int 100 = OptRcode.Int (100 &&& 0x0FFF)) ∧
      ((100 &&& 0x0FFF) ∈ optNamedValues →
        (OptRcode.from_int 100).to_int = 100 &&& 0x0FFF) :=
  opt_from_int_total_classification 100 (by norm_num)

/-- C7: equality, ordering and hashing delegate to `to_int` in every code
type (for `OptRcode` and `TsigRcode` the operations are modelled from the
spec, the source having the impls only for `Rcode`); consequently a named
variant and a catch-all with the same resolved integer compare equal,
`NoError` orders below `NXDomain`, and `from_int 3` equals the plain
integer 3 under the cross-type contract. -/
theorem eq_ord_hash_by_to_int :
    (∀ x y : Rcode, Rcode.beq x y = true ↔ x.to_int = y.to_int) ∧
      (∀ x y : Rcode, Rcode.cmp x y = compare x.to_int y.to_int) ∧
      (∀ (state : Nat → Nat) (x : Rcode),
        Rcode.hashWith state x = state x.to_int) ∧
      (∀ x y : OptRcode, OptRcode.beq x y = true ↔ x.to_int = y.to_int) ∧
      (∀ x y : OptRcode, OptRcode.cmp x y = compare x.to_int y.to_int) ∧
      (∀ (state : Nat → Nat) (x : OptRcode),
        OptRcode.hashWith state x = state x.to_int) ∧
      (∀ x y : TsigRcode, TsigRcode.beq x y = true ↔ x.to_int = y.to_int) ∧
      (∀ x y : TsigRcode, TsigRcode.cmp x y = compare x.to_int y.to_int) ∧
      (∀ (state : Nat → Nat) (x : TsigRcode),
        TsigRcode.hashWith state x = state x.to_int) ∧
      Rcode.beq Rcode.NXDomain (Rcode.Int 3) = true ∧
      Rcode.cmp Rcode.NoError Rcode.NXDomain = Ordering.lt ∧
      Rcode.beqNat (Rcode.from_int 3) 3 = true := by
  refine ⟨?_, fun x y => rfl, fun state x => rfl,
    ?_, fun x y => rfl, fun state x => rfl,
    ?_, fun x y => rfl, fun state x => rfl,
    by decide, by decide, by decide⟩ <;>
    exact fun x y => by simp [Rcode.beq, OptRcode.beq, TsigRcode.beq]

/-! Rendering lemmas for the comparison with the IANA registry. -/

/-- On masked 4-bit values, the source rendering agrees with the recorded
table (IANA mnemonic except `NOAUTH` at 9, decimal for unnamed values). -/
theorem rcode_display_bounded :
    ∀ m < 16, (Rcode.from_int m).display = rcodeDisplaySpec m ∧
      (Rcode.Int m).display = rcodeDisplaySpec m := by
  decide

/-- The catch-all rendering only depends on the stored value mod 16. -/
theorem rcode_display_int_mod (v : Nat) :
    (Rcode.Int v).display = (Rcode.Int (v % 16)).display := by
  simp only [Rcode.display]
  rw [rcode_from_int_mod v]

/-- On the named extended values, the source rendering agrees with the
recorded table. -/
theorem opt_display_named :
    ∀ m ∈ optNamedValues, (OptRcode.from_int m).display = optDisplaySpec m ∧
      (OptRcode.Int m).display = optDisplaySpec m := by
  decide

/-- The extended catch-all rendering only depends on the stored value mod
4096. -/
theorem opt_display_int_mod (v : Nat) :
    (OptRcode.Int v).display = (OptRcode.Int (v % 4096)).display := by
  simp only [OptRcode.display]
  rw [opt_from_int_mod v]

/-- The modelled IANA table has no entry off the named extended values. -/
theorem iana_opt_not_named (m : Nat) (h : m ∉ optNamedValues) :
    ianaOptMnemonic m = none := by
  simp only [optNamedValues, List.mem_cons, List.not_mem_nil, or_false] at h
  push_neg at h
  obtain ⟨h0, h1, h2, h3, h4, h5, h6, h7, h8, h9, h10, h16, h23⟩ := h
  simp only [ianaOptMnemonic, ianaRcodeMnemonic, if_neg h0, if_neg h1,
    if_neg h2, if_neg h3, if_neg h4, if_neg h5, if_neg h6, if_neg h7,
    if_neg h8, if_neg h9, if_neg h10, if_neg h16, if_neg h23]

/-- Off the named extended values the recorded table renders decimal. -/
theorem opt_display_spec_not_named (m : Nat) (h : m ∉ optNamedValues) :
    optDisplaySpec m = Nat.repr m := by
  have h9 : m ≠ 9 := fun e => h (by rw [e]; decide)
  have h16 : m ≠ 16 := fun e => h (by rw [e]; decide)
  simp only [optDisplaySpec, if_neg h9, if_neg h16, iana_opt_not_named m h,
    Option.getD_none]

/-- Off the named extended values the source renders the masked value in
decimal. -/
theorem opt_display_int_not_named (m : Nat) (h : m ∉ optNamedValues)
    (hm : m < 4096) :
    (OptRcode.Int m).display = Nat.repr m := by
  have he : OptRcode.from_int m = OptRcode.Int m := by
    have h2 := opt_from_int_not_named m (by rwa [Nat.mod_eq_of_lt hm])
    rwa [Nat.mod_eq_of_lt hm] at h2
  simp only [OptRcode.display]
  rw [he]

/-- A 16-bit value the source does not name classifies to the TSIG
catch-all holding the value unchanged. -/
theorem tsig_from_int_not_named (v : Nat) (h : v ∉ tsigNamedValues) :
    TsigRcode.from_int v = .Int v := by
  simp only [tsigNamedValues, List.mem_cons, List.not_mem_nil, or_false] at h
  push_neg at h
  obtain ⟨h0, h1, h2, h3, h4, h5, h6, h7, h8, h9, h10,
    h16, h17, h18, h19, h20, h21, h22, h23⟩ := h
  simp only [TsigRcode.from_int, if_neg h0, if_neg h1, if_neg h2, if_neg h3,
    if_neg h4, if_neg h5, if_neg h6, if_neg h7, if_neg h8, if_neg h9,
    if_neg h10, if_neg h16, if_neg h17, if_neg h18, if_neg h19, if_neg h20,
    if_neg h21, if_neg h22, if_neg h23]

/-- The modelled IANA table has no entry off the named TSIG values. -/
theorem iana_tsig_not_named (v : Nat) (h : v ∉ tsigNamedValues) :
    ianaTsigMnemonic v = none := by
  simp only [tsigNamedValues, List.mem_cons, List.not_mem_nil, or_false] at h
  push_neg at h
  obtain ⟨h0, h1, h2, h3, h4, h5, h6, h7, h8, h9, h10,
    h16, h17, h18, h19, h20, h21, h22, h23⟩ := h
  simp only [ianaTsigMnemonic, ianaRcodeMnemonic, if_neg h0, if_neg h1,
    if_neg h2, if_neg h3, if_neg h4, if_neg h5, if_neg h6, if_neg h7,
    if_neg h8, if_neg h9, if_neg h10, if_neg h16, if_neg h17, if_neg h18,
    if_neg h19, if_neg h20, if_neg h21, if_neg h22, if_neg h23]

/-- Off the named TSIG values the recorded table renders decimal. -/
theorem tsig_display_spec_not_named (v : Nat) (h : v ∉ tsigNamedValues) :
    tsigDisplaySpec v = Nat.repr v := by
  have h9 : v ≠ 9 := fun e => h (by rw [e]; decide)
  simp only [tsigDisplaySpec, if_neg h9, iana_tsig_not_named v h,
    Option.getD_none]

/-- Off the named TSIG values the source renders the value in decimal. -/
theorem tsig_display_int_not_named (v : Nat) (h : v ∉ tsigNamedValues) :
    (TsigRcode.Int v).display = Nat.repr v := by
  simp only [TsigRcode.display]
  rw [tsig_from_int_not_named v h]

/-- On the named TSIG values, the source rendering agrees with the
recorded table. -/
theorem tsig_display_named :
    ∀ m ∈ tsigNamedValues, (TsigRcode.from_int m).display = tsigDisplaySpec m ∧
      (TsigRcode.Int m).display = tsigDisplaySpec m := by
  decide

/-- C9, counterexample: `OptRcode::BadVers` resolves to 16, whose IANA
mnemonic in the extended (EDNS) space is `BADVERS`, but the source renders
it as `BADVER`; so not every named variant renders as the canonical IANA
mnemonic of its value. -/
theorem badvers_renders_badver_not_iana :
    OptRcode.BadVers.to_int = 16 ∧
      ianaOptMnemonic 16 = some "BADVERS" ∧
      OptRcode.BadVers.display = "BADVER" ∧
      OptRcode.BadVers.display ≠ (ianaOptMnemonic 16).getD "" := by
  refine ⟨rfl, rfl, rfl, ?_⟩
  decide

/-- C9, amended: every named value renders as a fixed uppercase mnemonic
that matches the IANA registry, except that value 9 (`NotAuth`) renders
as `NOAUTH` (registry `NOTAUTH`) in all three types, and value 16
(`BadVers`) renders as `BADVER` (registry `BADVERS`) in `OptRcode`;
unrecognized codes render as their (masked) decimal value.  Both the
classified value and the raw catch-all render this way. -/
theorem display_matches_iana_except_divergences (v : Nat) (_h : v < 65536) :
    (Rcode.from_int v).display = rcodeDisplaySpec (v % 16) ∧
      (Rcode.Int v).display = rcodeDisplaySpec (v % 16) ∧
      (OptRcode.from_int v).display = optDisplaySpec (v % 4096) ∧
      (OptRcode.Int v).display = optDisplaySpec (v % 4096) ∧
      (TsigRcode.from_int v).display = tsigDisplaySpec v ∧
      (TsigRcode.Int v).display = tsigDisplaySpec v := by
  have hr := rcode_display_bounded (v % 16) (Nat.mod_lt v (by norm_num))
  have hlt : v % 4096 < 4096 := Nat.mod_lt v (by norm_num)
  refine ⟨?_, ?_, ?_, ?_, ?_, ?_⟩
  · rw [rcode_from_int_mod v]
    exact hr.1
  · rw [rcode_display_int_mod v]
    exact hr.2
  · by_cases hm : (v % 4096) ∈ optNamedValues
    · rw [opt_from_int_mod v]
      exact (opt_display_named _ hm).1
    · rw [opt_from_int_not_named v hm,
        opt_display_int_not_named _ hm hlt, opt_display_spec_not_named _ hm]
  · by_cases hm : (v % 4096) ∈ optNamedValues
    · rw [opt_display_int_mod v]
      exact (opt_display_named _ hm).2
    · rw [opt_display_int_mod v,
        opt_display_int_not_named _ hm hlt, opt_display_spec_not_named _ hm]
  · by_cases ht : v ∈ tsigNamedValues
    · exact (tsig_display_named v ht).1
    · rw [tsig_from_int_not_named v ht,
        tsig_display_int_not_named v ht, tsig_display_spec_not_named v ht]
  · by_cases ht : v ∈ tsigNamedValues
    · exact (tsig_display_named v ht).2
    · rw [tsig_display_int_not_named v ht, tsig_display_spec_not_named v ht]

/-- Witness for the amended C9 at the concrete value 100. -/
theorem display_matches_iana_except_divergences_witness :
    (Rcode.from_int 100).display = rcodeDisplaySpec (100 % 16) ∧
      (Rcode.Int 100).display = rcodeDisplaySpec (100 % 16) ∧
      (OptRcode.from_int 100).display = optDisplaySpec (100 % 4096) ∧
      (OptRcode.Int 100).display = optDisplaySpec (100 % 4096) ∧
      (TsigRcode.from_int 100).display = tsigDisplaySpec 100 ∧
      (TsigRcode.Int 100).display = tsigDisplaySpec 100 :=
  display_matches_iana_except_divergences 100 (by norm_num)
